import Mathlib

/-!
Verification of the forensic-image-analyzer engine against its specification.

Each detector of the repository is embedded shallowly: Python floats become
real numbers (exact rational pixel data becomes `ℚ` where the embedded code is
pure rational arithmetic), Python dictionaries become association lists with
the insertion semantics of `dict`, raised exceptions become `Except` values,
and the external library calls (SIFT, FLANN, PIL) appear as explicit inputs
or function parameters of the embedded detector.
-/

namespace ForensicAnalyzer

/-! ## Orchestrator (src/orchestrator/pipeline.py)

`ForensicPipeline.execute_all` iterates the registered analyzers in order,
skips disabled ones, and stores either the analyzer's result or the caught
exception message in the `results` dictionary keyed by the analyzer's name.
-/

/-- An analyzer as the orchestrator sees it: a `name`, an `enabled` flag and a
`run` action that either returns a result or raises (modelled by `Except`). -/
structure Analyzer (R : Type) where
  name : String
  enabled : Bool
  run : String → Except String R

/-- Insertion into a Python `dict` rendered as an association list: an existing
key is overwritten in place, a new key is appended at the end. -/
def dictInsert {α : Type} (l : List (String × α)) (k : String) (v : α) :
    List (String × α) :=
  if l.any (fun p => p.1 == k) then
    l.map (fun p => if p.1 == k then (k, v) else p)
  else
    l ++ [(k, v)]

/-- The pipeline object: its ordered analyzer list and the `results` dict left
over from a previous run (`execute_all` discards it). -/
structure ForensicPipeline (R : Type) where
  analyzers : List (Analyzer R)
  results : List (String × Except String R)

/-- `ForensicPipeline.execute_all` (pipeline.py lines 46-70): reset `results`
to the empty dict, then for each enabled analyzer store `run`'s outcome —
the returned result, or on an exception the error record — under the
analyzer's name; disabled analyzers are skipped entirely. -/
def execute_all {R : Type} (p : ForensicPipeline R) (image_path : String) :
    List (String × Except String R) :=
  p.analyzers.foldl
    (fun acc a =>
      if a.enabled then dictInsert acc a.name (a.run image_path) else acc)
    []

lemma dictInsert_fresh {α : Type} (l : List (String × α)) (k : String) (v : α)
    (h : ∀ p ∈ l, p.1 ≠ k) : dictInsert l k v = l ++ [(k, v)] := by
  unfold dictInsert
  rw [if_neg]
  simp only [List.any_eq_true, not_exists, not_and]
  intro p hp
  simpa [beq_iff_eq] using h p hp

lemma execute_all_loop {R : Type} (as : List (Analyzer R)) (path : String)
    (acc : List (String × Except String R))
    (hnd : ((as.filter (·.enabled)).map (·.name)).Nodup)
    (hfresh : ∀ a ∈ as.filter (·.enabled), ∀ p ∈ acc, p.1 ≠ a.name) :
    as.foldl
      (fun acc a =>
        if a.enabled then dictInsert acc a.name (a.run path) else acc) acc
    = acc ++ (as.filter (·.enabled)).map (fun a => (a.name, a.run path)) := by
  induction as generalizing acc with
  | nil => simp
  | cons a as ih =>
    by_cases ha : a.enabled
    · have hmem : a ∈ (a :: as).filter (·.enabled) := by
        simp [List.filter_cons, ha]
      have hfa : ∀ p ∈ acc, p.1 ≠ a.name := fun p hp => hfresh a hmem p hp
      have hfilter : (a :: as).filter (·.enabled) = a :: as.filter (·.enabled) := by
        simp [List.filter_cons, ha]
      rw [hfilter] at hnd
      simp only [List.map_cons, List.nodup_cons] at hnd
      simp only [List.foldl_cons, if_pos ha, dictInsert_fresh acc a.name _ hfa]
      rw [ih]
      · simp [hfilter]
      · exact hnd.2
      · intro b hb p hp
        rcases List.mem_append.1 hp with hp | hp
        · exact hfresh b (by rw [hfilter]; exact List.mem_cons_of_mem a hb) p hp
        · simp only [List.mem_singleton] at hp
          subst hp
          intro hcontra
          have hab : a.name = b.name := hcontra
          exact hnd.1 (hab ▸ List.mem_map_of_mem (·.name) hb)
    · have hfilter : (a :: as).filter (·.enabled) = as.filter (·.enabled) := by
        simp [List.filter_cons, ha]
      rw [hfilter] at hnd
      simp only [List.foldl_cons, if_neg ha]
      rw [ih acc hnd]
      · rw [hfilter]
      · intro b hb p hp
        exact hfresh b (by rw [hfilter]; exact hb) p hp

/-- C1: for every ordered analyzer collection (with distinct names among the
enabled analyzers, as holds for the registered detectors) and every image
path, `execute_all` returns exactly one entry per enabled analyzer, keyed by
the analyzer's name in registration order; disabled analyzers get no entry; a
raising analyzer's exception is recorded as its entry (so every later
analyzer still appears); and the mapping is rebuilt from empty — it does not
depend on the `results` dict of a previous run. -/
theorem execute_all_isolates_and_orders {R : Type} (p : ForensicPipeline R)
    (path : String)
    (hnd : ((p.analyzers.filter (·.enabled)).map (·.name)).Nodup) :
    execute_all p path
      = (p.analyzers.filter (·.enabled)).map (fun a => (a.name, a.run path))
    ∧ ∀ old : List (String × Except String R),
        execute_all ⟨p.analyzers, old⟩ path = execute_all p path := by
  refine ⟨?_, fun _ => rfl⟩
  unfold execute_all
  simpa using execute_all_loop p.analyzers path [] hnd (by simp)

/-- Concrete instance of the fault-isolation theorem: three enabled analyzers,
the second raising, plus a disabled one — three entries in order, the middle
one an error record. -/
theorem execute_all_isolates_and_orders_witness :
    ((([⟨"A", true, fun _ => .ok 1⟩, ⟨"B", true, fun _ => .error "boom"⟩,
        ⟨"D", false, fun _ => .ok 0⟩, ⟨"C", true, fun _ => .ok 3⟩] :
          List (Analyzer Nat)).filter (·.enabled)).map (·.name)).Nodup
    ∧ execute_all
        ⟨[⟨"A", true, fun _ => .ok 1⟩, ⟨"B", true, fun _ => .error "boom"⟩,
          ⟨"D", false, fun _ => .ok 0⟩, ⟨"C", true, fun _ => .ok 3⟩], []⟩
        "img.png"
      = [("A", .ok 1), ("B", .error "boom"), ("C", .ok 3)] := by
  refine ⟨by decide, ?_⟩
  rw [(execute_all_isolates_and_orders
    ⟨[⟨"A", true, fun _ => .ok 1⟩, ⟨"B", true, fun _ => .error "boom"⟩,
      ⟨"D", false, fun _ => .ok 0⟩, ⟨"C", true, fun _ => .ok 3⟩], []⟩
    "img.png" (by decide)).1]
  rfl

/-! ## Statistical block framework (src/analyzers/noise_analyzer.py)

`NoiseAnalyzer.calculate_noise_variance` (and the identical loops in
`SplicingDetector.analyze_noise_regions`, `analyze_dct_coefficients`,
`analyze_color_statistics`, `EdgeAnalyzer.analyze_edge_strength` and
`LuminanceAnalyzer.analyze_direction_consistency`) allocates a
`floor(h/B) × floor(w/B)` zero grid and fills cell `(i//B, j//B)` with the
block reducer for `i in range(0, h - B, B)`, `j in range(0, w - B, B)`.
Pixel values are integers, so the arithmetic is embedded exactly over `ℚ`. -/

/-- Arithmetic mean of a list, `np.mean` on exact rational data (`0` on the
empty list, as `0 / 0 = 0` in Lean — numpy returns NaN there, a case no block
of the analyzed grids hits since `B ≥ 1`). -/
def listMean (l : List ℚ) : ℚ := l.sum / l.length

/-- `np.var`: population variance, the mean of the squared deviations. -/
def npVar (l : List ℚ) : ℚ :=
  listMean (l.map (fun x => (x - listMean l) ^ 2))

/-- The `B × B` block of a 2-D map with top-left corner `(i, j)`, row-major,
as sliced by `noise[i:i+B, j:j+B]`. -/
def blockOf (m : ℕ → ℕ → ℚ) (i j B : ℕ) : List ℚ :=
  ((List.range B).map (fun a => (List.range B).map (fun b => m (i + a) (j + b)))).flatten

/-- An evidence map: the grid dimensions produced by `np.zeros((h//B, w//B))`
together with the cell values. -/
structure BlockMap where
  rows : ℕ
  cols : ℕ
  val : ℕ → ℕ → ℚ

/-- `NoiseAnalyzer.calculate_noise_variance` (noise_analyzer.py lines 41-60):
the loop `for i in range(0, height - block_size, block_size)` writes cell
`(i // B, j // B)` exactly when `i < height - block_size` (and likewise for
`j`), every other cell keeping the `np.zeros` value `0`. -/
def calculate_noise_variance (noise : ℕ → ℕ → ℚ) (height width block_size : ℕ) :
    BlockMap :=
  ⟨height / block_size, width / block_size,
   fun r c =>
     if r * block_size < height - block_size ∧ c * block_size < width - block_size
     then npVar (blockOf noise (r * block_size) (c * block_size) block_size)
     else 0⟩

/-- The 4×4 noise map whose bottom-right 2×2 block is non-constant, exhibiting
the dropped final block row/column of the grid loop. -/
def c2NoiseMap : ℕ → ℕ → ℚ := fun i j => if i = 2 ∧ j = 2 then 2 else 0

/-- C2: on a 4×4 map with block size 2 (dimensions exact multiples of the
block size) the grid is 2×2 as specified, but the loop bound
`range(0, height - block_size, block_size)` stops one block early: cell
`(1, 1)` of the grid keeps its `np.zeros` value `0` even though the variance
of the corresponding full 2×2 block is `3/4` — the code drops the last full
block row and column whenever the dimension is an exact multiple of the block
size, contradicting the specified per-block reduction. -/
theorem calculate_noise_variance_drops_last_full_block :
    (calculate_noise_variance c2NoiseMap 4 4 2).rows = 2
    ∧ (calculate_noise_variance c2NoiseMap 4 4 2).cols = 2
    ∧ (calculate_noise_variance c2NoiseMap 4 4 2).val 0 0
        = npVar (blockOf c2NoiseMap 0 0 2)
    ∧ (calculate_noise_variance c2NoiseMap 4 4 2).val 1 1 = 0
    ∧ npVar (blockOf c2NoiseMap 2 2 2) = 3 / 4 := by
  refine ⟨rfl, rfl, ?_, ?_, ?_⟩
  · norm_num [calculate_noise_variance]
  · norm_num [calculate_noise_variance]
  · have hb : blockOf c2NoiseMap 2 2 2 = [2, 0, 0, 0] := by
      norm_num [blockOf, c2NoiseMap, List.range_succ]
    rw [hb]
    norm_num [npVar, listMean]

/-! ## Suspicion classifiers

Each detector maps its scalar score to one of the four ordinal suspicion
levels (the source emits the Spanish labels "Bajo"/"Moderado"/"Alto"/"Muy
Alto" for Low/Moderate/High/Very High). Scores are floats; the bands are
embedded over `ℝ`. -/

/-- Noise suspicion bands, `NoiseAnalyzer.analyze_noise` lines 153-161. -/
noncomputable def noise_suspicion_level (cv_score : ℝ) : String :=
  if cv_score < 0.5 then "Bajo"
  else if cv_score < 0.8 then "Moderado"
  else if cv_score < 1.2 then "Alto"
  else "Muy Alto"

/-- Clone suspicion bands from the surviving-match count,
`CloneDetectionAnalyzer.detect_clones` lines 110-121. -/
def clone_suspicion_level (num_clones : ℕ) : String :=
  if num_clones < 5 then "Bajo"
  else if num_clones < 20 then "Moderado"
  else if num_clones < 50 then "Alto"
  else "Muy Alto"

/-- Splicing suspicion bands from the global score,
`SplicingDetector.detect_splicing` lines 270-282. -/
noncomputable def splicing_suspicion_level (global_score : ℝ) : String :=
  if global_score < 20 then "Bajo"
  else if global_score < 40 then "Moderado"
  else if global_score < 60 then "Alto"
  else "Muy Alto"

/-- Luminance suspicion bands, `LuminanceAnalyzer.analyze_luminance` lines
210-222. -/
noncomputable def luminance_suspicion_level (inconsistency_score : ℝ) : String :=
  if inconsistency_score < 0.3 then "Bajo"
  else if inconsistency_score < 0.6 then "Moderado"
  else if inconsistency_score < 1.0 then "Alto"
  else "Muy Alto"

/-- C4: every real-valued score lands in exactly one strict-upper-bound band —
Noise at 0.5/0.8/1.2, Clone match count at 5/20/50, Splicing at 20/40/60 —
and a score exactly on a boundary takes the higher-index band, as in the
spec's example: a Noise score of exactly 0.5 classifies as "Moderado". -/
theorem suspicion_bands_exhaustive_and_strict :
    (∀ s : ℝ,
      (noise_suspicion_level s = "Bajo" ↔ s < 0.5)
      ∧ (noise_suspicion_level s = "Moderado" ↔ 0.5 ≤ s ∧ s < 0.8)
      ∧ (noise_suspicion_level s = "Alto" ↔ 0.8 ≤ s ∧ s < 1.2)
      ∧ (noise_suspicion_level s = "Muy Alto" ↔ 1.2 ≤ s))
    ∧ (∀ n : ℕ,
      (clone_suspicion_level n = "Bajo" ↔ n < 5)
      ∧ (clone_suspicion_level n = "Moderado" ↔ 5 ≤ n ∧ n < 20)
      ∧ (clone_suspicion_level n = "Alto" ↔ 20 ≤ n ∧ n < 50)
      ∧ (clone_suspicion_level n = "Muy Alto" ↔ 50 ≤ n))
    ∧ (∀ s : ℝ,
      (splicing_suspicion_level s = "Bajo" ↔ s < 20)
      ∧ (splicing_suspicion_level s = "Moderado" ↔ 20 ≤ s ∧ s < 40)
      ∧ (splicing_suspicion_level s = "Alto" ↔ 40 ≤ s ∧ s < 60)
      ∧ (splicing_suspicion_level s = "Muy Alto" ↔ 60 ≤ s))
    ∧ noise_suspicion_level 0.5 = "Moderado" := by
  refine ⟨fun s => ?_, fun n => ?_, fun s => ?_, ?_⟩
  · unfold noise_suspicion_level
    split_ifs with h1 h2 h3 <;>
      refine ⟨?_, ?_, ?_, ?_⟩ <;> constructor <;> intro h <;>
      first
        | rfl
        | exact absurd h (by decide)
        | linarith
        | (constructor <;> linarith)
  · unfold clone_suspicion_level
    split_ifs with h1 h2 h3 <;>
      refine ⟨?_, ?_, ?_, ?_⟩ <;> constructor <;> intro h <;>
      first
        | rfl
        | exact absurd h (by decide)
        | omega
  · unfold splicing_suspicion_level
    split_ifs with h1 h2 h3 <;>
      refine ⟨?_, ?_, ?_, ?_⟩ <;> constructor <;> intro h <;>
      first
        | rfl
        | exact absurd h (by decide)
        | linarith
        | (constructor <;> linarith)
  · unfold noise_suspicion_level
    rw [if_neg (by norm_num), if_pos (by norm_num)]

/-- Edge suspicion bands, `EdgeAnalyzer.analyze_edges` lines 190-202: note the
third band is entered by a disjunction. -/
noncomputable def edge_suspicion_level (inconsistency_score : ℝ)
    (num_artificial_lines : ℕ) : String :=
  if inconsistency_score < 0.1 ∧ num_artificial_lines < 10 then "Bajo"
  else if inconsistency_score < 0.2 ∧ num_artificial_lines < 30 then "Moderado"
  else if inconsistency_score < 0.3 ∨ num_artificial_lines < 50 then "Alto"
  else "Muy Alto"

/-- C10: whenever the artificial-line count is below 50, the edge analyzer
never reports "Muy Alto" ("Very High"), no matter how large the cross-scale
inconsistency score is, because the disjunction
`inconsistency_score < 0.3 or num_artificial_lines < 50` already enters the
third band. -/
theorem edge_very_high_needs_50_lines (s : ℝ) (n : ℕ) (h : n < 50) :
    edge_suspicion_level s n ≠ "Muy Alto" := by
  unfold edge_suspicion_level
  split_ifs with h1 h2 h3 <;>
    first
      | decide
      | exact absurd (Or.inr h) h3

/-- The line-count bound at a concrete input: score 1000, zero lines. -/
theorem edge_very_high_needs_50_lines_witness :
    0 < 50 ∧ edge_suspicion_level 1000 0 ≠ "Muy Alto" :=
  ⟨by decide, edge_very_high_needs_50_lines 1000 0 (by decide)⟩

/-! ## JPEG quality analyzer format dispatch (src/analyzers/jpeg_quality.py)

`JPEGQualityAnalyzer.analyze_jpeg` opens the image via PIL and branches on
its `format` attribute before any quality estimation. The PIL image and the
two estimation collaborators (`estimate_jpeg_quality`,
`detect_double_compression`) appear as parameters of the embedding. -/

/-- The slice of a PIL image the dispatch reads: its `format` string. -/
structure PILImage where
  format : String

/-- Outcome of `analyze_jpeg`: the non-JPEG short-circuit record, or the
success record merging the estimated quality with the double-compression
results (of abstract type `C`). -/
inductive JpegOutcome (C : Type) where
  | notJpeg (format : String) (message : String)
  | success (estimated_quality : Int) (compression : C)
deriving DecidableEq

/-- The `'status'` key of the returned dictionary. -/
def JpegOutcome.status {C : Type} : JpegOutcome C → String
  | .notJpeg _ _ => "not_jpeg"
  | .success _ _ => "success"

/-- `JPEGQualityAnalyzer.analyze_jpeg` (jpeg_quality.py lines 229-252): if the
opened image's format is not `'JPEG'`, return the short-circuit record with
status `'not_jpeg'`; otherwise estimate the quality and run the
double-compression analysis. -/
def analyze_jpeg {C : Type} (estimate_jpeg_quality : PILImage → Int)
    (detect_double_compression : PILImage → C) (img : PILImage) :
    JpegOutcome C :=
  if img.format ≠ "JPEG" then
    .notJpeg img.format
      "La imagen no está en formato JPEG.  Este análisis solo funciona con JPEG/JPG."
  else
    .success (estimate_jpeg_quality img) (detect_double_compression img)

/-- C5 counterexample: on a PNG input the analyzer's status is the literal
string `'not_jpeg'`, not the `'not_applicable'` status the claim names. -/
theorem analyze_jpeg_status_is_not_jpeg_not_not_applicable :
    (analyze_jpeg (fun _ => 75) (fun _ => ()) ⟨"PNG"⟩).status = "not_jpeg"
    ∧ (analyze_jpeg (fun _ => 75) (fun _ => ()) ⟨"PNG"⟩).status ≠ "not_applicable" := by
  constructor <;> decide

/-- C5 amended: for every input image whose format is not JPEG, `analyze_jpeg`
short-circuits with the status `'not_jpeg'` (the code's name for the
not-applicable outcome) and performs no quality estimation — the result is
independent of both estimation collaborators. -/
theorem analyze_jpeg_short_circuits_non_jpeg {C : Type}
    (est est' : PILImage → Int) (dc dc' : PILImage → C) (img : PILImage)
    (h : img.format ≠ "JPEG") :
    (analyze_jpeg est dc img).status = "not_jpeg"
    ∧ analyze_jpeg est dc img
        = .notJpeg img.format
            "La imagen no está en formato JPEG.  Este análisis solo funciona con JPEG/JPG."
    ∧ analyze_jpeg est dc img = analyze_jpeg est' dc' img := by
  unfold analyze_jpeg
  rw [if_pos h, if_pos h]
  exact ⟨rfl, rfl, rfl⟩

/-- The short-circuit at a concrete PNG input, with two distinct estimator
pairs. -/
theorem analyze_jpeg_short_circuits_non_jpeg_witness :
    (PILImage.mk "PNG").format ≠ "JPEG"
    ∧ ((analyze_jpeg (fun _ => 75) (fun _ => (0 : Int)) ⟨"PNG"⟩).status = "not_jpeg"
       ∧ analyze_jpeg (fun _ => 75) (fun _ => (0 : Int)) ⟨"PNG"⟩
           = .notJpeg "PNG"
               "La imagen no está en formato JPEG.  Este análisis solo funciona con JPEG/JPG."
       ∧ analyze_jpeg (fun _ => 75) (fun _ => (0 : Int)) ⟨"PNG"⟩
           = analyze_jpeg (fun _ => 30) (fun _ => (1 : Int)) ⟨"PNG"⟩) :=
  ⟨by decide,
   analyze_jpeg_short_circuits_non_jpeg (fun _ => 75) (fun _ => 30)
     (fun _ => (0 : Int)) (fun _ => (1 : Int)) ⟨"PNG"⟩ (by decide)⟩

/-! ## Clone (copy-move) detector (src/analyzers/clone_detection.py)

`CloneDetectionAnalyzer.detect_clones` extracts SIFT keypoints/descriptors
and FLANN 2-nearest self-matches; those library outputs appear as the
embedded function's inputs (`keypoints`, `descriptors`, `knn_matches`). -/

/-- A SIFT keypoint: its `pt` pixel coordinates. -/
structure KeyPoint where
  pt : ℝ × ℝ

instance : Inhabited KeyPoint := ⟨⟨(0, 0)⟩⟩

/-- A FLANN descriptor match. -/
structure DMatch where
  queryIdx : ℕ
  trainIdx : ℕ
  distance : ℝ

/-- The per-pair filter of `detect_clones` (clone_detection.py lines 70-83):
a candidate pair `(m, n)` (best, second-best) survives when `m` is not a
self-match, passes the ratio test against `n`, and its two matched keypoints
are more than 50 pixels apart. -/
def match_is_suspicious (threshold : ℝ) (keypoints : List KeyPoint)
    (m n : DMatch) : Prop :=
  m.queryIdx ≠ m.trainIdx ∧ m.distance < threshold * n.distance ∧
    Real.sqrt
      (((keypoints.getD m.queryIdx default).pt.1
          - (keypoints.getD m.trainIdx default).pt.1) ^ 2
        + ((keypoints.getD m.queryIdx default).pt.2
          - (keypoints.getD m.trainIdx default).pt.2) ^ 2) > 50

open Classical in
/-- The `good_matches` list accumulated by `detect_clones`: the best match of
every knn pair of length exactly 2 that passes the suspicious-clone filter. -/
noncomputable def good_matches (threshold : ℝ) (keypoints : List KeyPoint)
    (knn_matches : List (List DMatch)) : List DMatch :=
  knn_matches.filterMap (fun match_pair =>
    match match_pair with
    | [m, n] => if match_is_suspicious threshold keypoints m n then some m else none
    | _ => none)

/-- The claim-relevant keys of the dictionary `detect_clones` returns. -/
structure CloneResult where
  status : String
  suspicion_level : String
  keypoints_found : ℕ
  suspicious_clones : ℕ
  threshold_used : Option ℝ

/-- `CloneDetectionAnalyzer.detect_clones` (clone_detection.py lines 25-132):
with no descriptors or fewer than 10 keypoints it returns the
`insufficient_features` record; otherwise it counts the surviving matches and
classifies that count. The 0.95 default of its `threshold` parameter is
`detect_clones_default_threshold` below. -/
noncomputable def detect_clones (keypoints : List KeyPoint)
    (descriptors : Option Unit) (knn_matches : List (List DMatch))
    (threshold : ℝ) : CloneResult :=
  if descriptors = none ∨ keypoints.length < 10 then
    ⟨"insufficient_features", "No Evaluable", 0, 0, none⟩
  else
    let num_clones := (good_matches threshold keypoints knn_matches).length
    ⟨"success", clone_suspicion_level num_clones, keypoints.length, num_clones,
      some threshold⟩

/-- The default value of `detect_clones`'s `threshold` parameter
(clone_detection.py line 25). -/
noncomputable def detect_clones_default_threshold : ℝ := 0.95

/-- `CloneDetectionAnalyzer.run` (clone_detection.py lines 141-164) invokes
`detect_clones` with the constant `threshold=0.7`. -/
noncomputable def clone_run (keypoints : List KeyPoint)
    (descriptors : Option Unit) (knn_matches : List (List DMatch)) :
    CloneResult :=
  detect_clones keypoints descriptors knn_matches 0.7

/-- C6: a candidate pair (best `m`, second-best `n`) is counted as a
suspicious clone iff `m` is not a self-match, `m.distance <
threshold * n.distance`, and the squared distance between the matched
keypoints exceeds 50² = 2500 (i.e. the Euclidean distance exceeds 50
pixels); moreover the public default ratio threshold is 0.95 while `run`
invokes `detect_clones` with the stricter 0.7. -/
theorem clone_filter_characterization (threshold : ℝ)
    (keypoints : List KeyPoint) (m n : DMatch) :
    (match_is_suspicious threshold keypoints m n ↔
      m.queryIdx ≠ m.trainIdx ∧ m.distance < threshold * n.distance ∧
        ((keypoints.getD m.queryIdx default).pt.1
            - (keypoints.getD m.trainIdx default).pt.1) ^ 2
          + ((keypoints.getD m.queryIdx default).pt.2
            - (keypoints.getD m.trainIdx default).pt.2) ^ 2 > 2500)
    ∧ detect_clones_default_threshold = 0.95
    ∧ ∀ (kps : List KeyPoint) (desc : Option Unit)
        (knn : List (List DMatch)),
        clone_run kps desc knn = detect_clones kps desc knn 0.7 := by
  refine ⟨?_, rfl, fun _ _ _ => rfl⟩
  unfold match_is_suspicious
  have h50 : ((50 : ℝ) < Real.sqrt
      (((keypoints.getD m.queryIdx default).pt.1
          - (keypoints.getD m.trainIdx default).pt.1) ^ 2
        + ((keypoints.getD m.queryIdx default).pt.2
          - (keypoints.getD m.trainIdx default).pt.2) ^ 2)) ↔
      (2500 : ℝ) < ((keypoints.getD m.queryIdx default).pt.1
          - (keypoints.getD m.trainIdx default).pt.1) ^ 2
        + ((keypoints.getD m.queryIdx default).pt.2
          - (keypoints.getD m.trainIdx default).pt.2) ^ 2 := by
    rw [Real.lt_sqrt (by norm_num)]
    norm_num
  exact and_congr_right fun _ => and_congr_right fun _ => h50

/-- C7: `detect_clones` returns `insufficient_features` exactly when fewer
than 10 keypoints were found (under SIFT's contract that descriptors are
`None` only when no keypoints exist); the outcome carries suspicion level
"No Evaluable" and is terminal and non-error; with at least 10 keypoints the
status is never `insufficient_features`. -/
theorem detect_clones_insufficient_features_iff (keypoints : List KeyPoint)
    (descriptors : Option Unit) (knn_matches : List (List DMatch))
    (threshold : ℝ) (hsift : descriptors = none → keypoints = []) :
    ((detect_clones keypoints descriptors knn_matches threshold).status
        = "insufficient_features" ↔ keypoints.length < 10)
    ∧ (keypoints.length < 10 →
        (detect_clones keypoints descriptors knn_matches threshold).suspicion_level
            = "No Evaluable"
        ∧ (detect_clones keypoints descriptors knn_matches threshold).status
            ≠ "error") := by
  unfold detect_clones
  by_cases hcond : descriptors = none ∨ keypoints.length < 10
  · rw [if_pos hcond]
    have hlen : keypoints.length < 10 := by
      rcases hcond with hd | hl
      · rw [hsift hd]; decide
      · exact hl
    exact ⟨⟨fun _ => hlen, fun _ => rfl⟩, fun _ => ⟨rfl, by decide⟩⟩
  · rw [if_neg hcond]
    push_neg at hcond
    have h10 : ¬ keypoints.length < 10 := not_lt.2 hcond.2
    exact ⟨⟨fun hfalse =>
              absurd hfalse (by decide : ("success" : String) ≠ "insufficient_features"),
            fun hlt => absurd hlt h10⟩,
           fun hlt => absurd hlt h10⟩

/-- The insufficient-features outcome at a concrete degenerate input: no
keypoints, no descriptors. -/
theorem detect_clones_insufficient_features_iff_witness :
    ((none : Option Unit) = none → ([] : List KeyPoint) = [])
    ∧ (((detect_clones [] none [] 1).status = "insufficient_features"
          ↔ ([] : List KeyPoint).length < 10)
       ∧ (([] : List KeyPoint).length < 10 →
            (detect_clones [] none [] 1).suspicion_level = "No Evaluable"
            ∧ (detect_clones [] none [] 1).status ≠ "error")) :=
  ⟨fun _ => rfl,
   detect_clones_insufficient_features_iff [] none [] 1 (fun _ => rfl)⟩

/-! ## Real-valued map statistics

Shared numpy primitives over 2-D float maps, embedded as
`Fin m → Fin n → ℝ`. -/

/-- `np.mean` of a 2-D map. -/
noncomputable def matMean {m n : ℕ} (A : Fin m → Fin n → ℝ) : ℝ :=
  (∑ i, ∑ j, A i j) / (m * n)

/-- `np.std` of a 2-D map: the square root of the mean squared deviation. -/
noncomputable def matStd {m n : ℕ} (A : Fin m → Fin n → ℝ) : ℝ :=
  Real.sqrt (matMean (fun i j => (A i j - matMean A) ^ 2))

lemma matMean_nonneg {m n : ℕ} (A : Fin m → Fin n → ℝ)
    (h : ∀ i j, 0 ≤ A i j) : 0 ≤ matMean A := by
  unfold matMean
  exact div_nonneg
    (Finset.sum_nonneg fun i _ => Finset.sum_nonneg fun j _ => h i j)
    (by positivity)

lemma matMean_of_zero {m n : ℕ} (A : Fin m → Fin n → ℝ)
    (h : ∀ i j, A i j = 0) : matMean A = 0 := by
  unfold matMean
  rw [Finset.sum_eq_zero fun i _ => Finset.sum_eq_zero fun j _ => h i j,
    zero_div]

lemma matStd_of_zero {m n : ℕ} (A : Fin m → Fin n → ℝ)
    (h : ∀ i j, A i j = 0) : matStd A = 0 := by
  unfold matStd
  rw [matMean_of_zero A h,
    matMean_of_zero (fun i j => (A i j - 0) ^ 2)
      (fun i j => by simp only []; rw [h i j]; ring),
    Real.sqrt_zero]

/-! ## Coefficient-of-variation scoring (noise and luminance detectors) -/

/-- `NoiseAnalyzer.analyze_noise_consistency` (noise_analyzer.py lines 62-99),
the score it returns: `std/mean` of the variance map when the mean is
positive, `0` otherwise. -/
noncomputable def analyze_noise_consistency_cv {m n : ℕ}
    (variance_map : Fin m → Fin n → ℝ) : ℝ :=
  if 0 < matMean variance_map then matStd variance_map / matMean variance_map
  else 0

/-- `LuminanceAnalyzer.analyze_direction_consistency` (luminance_analyzer.py
lines 102-107), the global score: `std / (mean + 1e-6)` of the circular
variance map. -/
noncomputable def luminance_inconsistency_score {m n : ℕ}
    (variance_map : Fin m → Fin n → ℝ) : ℝ :=
  matStd variance_map / (matMean variance_map + 1e-6)

/-- C8: for every evidence map with nonnegative cells (block variances and
circular variances are nonnegative), the noise and luminance
coefficient-of-variation scores are nonnegative and their defining divisions
are guarded — the noise branch divides only by a positive mean, and the
luminance denominator `mean + 1e-6` is strictly positive — so neither score
is NaN or infinite; and on a degenerate (uniformly zero) map both detectors
classify into the lowest suspicion band "Bajo" instead of failing with a
division error. -/
theorem cv_scores_nonneg_and_degenerate_low {m n : ℕ}
    (variance_map : Fin m → Fin n → ℝ)
    (hnonneg : ∀ i j, 0 ≤ variance_map i j) :
    0 ≤ analyze_noise_consistency_cv variance_map
    ∧ 0 ≤ luminance_inconsistency_score variance_map
    ∧ 0 < matMean variance_map + 1e-6
    ∧ ((∀ i j, variance_map i j = 0) →
        noise_suspicion_level (analyze_noise_consistency_cv variance_map)
          = "Bajo"
        ∧ luminance_suspicion_level (luminance_inconsistency_score variance_map)
          = "Bajo") := by
  have hmean : 0 ≤ matMean variance_map := matMean_nonneg variance_map hnonneg
  have hdenom : 0 < matMean variance_map + 1e-6 := by
    have : (0 : ℝ) < 1e-6 := by norm_num
    linarith
  refine ⟨?_, ?_, hdenom, ?_⟩
  · unfold analyze_noise_consistency_cv
    split_ifs with hpos
    · exact div_nonneg (Real.sqrt_nonneg _) (le_of_lt hpos)
    · exact le_refl 0
  · exact div_nonneg (Real.sqrt_nonneg _) (le_of_lt hdenom)
  · intro hzero
    have hm0 : matMean variance_map = 0 := matMean_of_zero variance_map hzero
    have hs0 : matStd variance_map = 0 := matStd_of_zero variance_map hzero
    have hcv : analyze_noise_consistency_cv variance_map = 0 := by
      unfold analyze_noise_consistency_cv
      rw [if_neg (by rw [hm0]; exact lt_irrefl 0)]
    have hlum : luminance_inconsistency_score variance_map = 0 := by
      unfold luminance_inconsistency_score
      rw [hm0, hs0, zero_div]
    rw [hcv, hlum]
    unfold noise_suspicion_level luminance_suspicion_level
    rw [if_pos (by norm_num), if_pos (by norm_num)]
    exact ⟨rfl, rfl⟩

/-- The guarded scoring at a concrete degenerate input: the 1×1 zero map. -/
theorem cv_scores_nonneg_and_degenerate_low_witness :
    (∀ i j : Fin 1, (0 : ℝ) ≤ (fun _ _ => (0 : ℝ)) i j)
    ∧ (0 ≤ analyze_noise_consistency_cv (fun _ _ => (0 : ℝ) : Fin 1 → Fin 1 → ℝ)
       ∧ 0 ≤ luminance_inconsistency_score (fun _ _ => (0 : ℝ) : Fin 1 → Fin 1 → ℝ)
       ∧ 0 < matMean (fun _ _ => (0 : ℝ) : Fin 1 → Fin 1 → ℝ) + 1e-6
       ∧ ((∀ i j : Fin 1, (fun _ _ => (0 : ℝ)) i j = 0) →
           noise_suspicion_level
             (analyze_noise_consistency_cv (fun _ _ => (0 : ℝ) : Fin 1 → Fin 1 → ℝ))
             = "Bajo"
           ∧ luminance_suspicion_level
               (luminance_inconsistency_score (fun _ _ => (0 : ℝ) : Fin 1 → Fin 1 → ℝ))
               = "Bajo")) :=
  ⟨fun _ _ => le_refl 0,
   cv_scores_nonneg_and_degenerate_low (fun _ _ => (0 : ℝ)) (fun _ _ => le_refl 0)⟩

/-! ## Splicing fusion engine (src/analyzers/splicing_detector.py)

`detect_boundaries` fuses the three evidence maps and `calculate_splicing_score`
reduces them to the global score. The maps share their dimensions (the
detector builds all three with the same block size; the resize fallback of
lines 139-146 is for mismatched shapes only and is unreachable here, where
equal size is expressed by the types). -/

/-- `cv2.normalize(A, None, 0, 1, cv2.NORM_MINMAX)`: affine rescaling of the
map onto `[0, 1]`. On a constant map OpenCV sets the scale factor to `0`,
producing the all-zero map, which coincides with Lean's `x / 0 = 0`. -/
noncomputable def normalize_minmax {m n : ℕ} (A : Fin m → Fin n → ℝ) :
    Fin m → Fin n → ℝ :=
  fun i j => (A i j - ⨅ a, ⨅ b, A a b) / ((⨆ a, ⨆ b, A a b) - ⨅ a, ⨅ b, A a b)

/-- Reading a map at integer coordinates under scipy's default `'reflect'`
boundary mode (enough of it for the radius-1 Sobel kernel). -/
noncomputable def matGetReflect {m n : ℕ} (A : Fin m → Fin n → ℝ)
    (zi zj : ℤ) : ℝ :=
  let ri : ℤ := if zi < 0 then -zi - 1
                else if (m : ℤ) ≤ zi then 2 * m - 1 - zi else zi
  let rj : ℤ := if zj < 0 then -zj - 1
                else if (n : ℤ) ≤ zj then 2 * n - 1 - zj else zj
  if h : ri.toNat < m ∧ rj.toNat < n then A ⟨ri.toNat, h.1⟩ ⟨rj.toNat, h.2⟩
  else 0

/-- `scipy.ndimage.sobel(A, axis=1)`: central difference `[-1, 0, 1]` along
the column axis, triangle smoothing `[1, 2, 1]` along the row axis. -/
noncomputable def sobel_axis1 {m n : ℕ} (A : Fin m → Fin n → ℝ) :
    Fin m → Fin n → ℝ :=
  fun i j =>
    (matGetReflect A ((i : ℤ) - 1) ((j : ℤ) + 1)
        - matGetReflect A ((i : ℤ) - 1) ((j : ℤ) - 1))
    + 2 * (matGetReflect A (i : ℤ) ((j : ℤ) + 1)
        - matGetReflect A (i : ℤ) ((j : ℤ) - 1))
    + (matGetReflect A ((i : ℤ) + 1) ((j : ℤ) + 1)
        - matGetReflect A ((i : ℤ) + 1) ((j : ℤ) - 1))

/-- `scipy.ndimage.sobel(A, axis=0)`: central difference along the row axis,
triangle smoothing along the column axis. -/
noncomputable def sobel_axis0 {m n : ℕ} (A : Fin m → Fin n → ℝ) :
    Fin m → Fin n → ℝ :=
  fun i j =>
    (matGetReflect A ((i : ℤ) + 1) ((j : ℤ) - 1)
        - matGetReflect A ((i : ℤ) - 1) ((j : ℤ) - 1))
    + 2 * (matGetReflect A ((i : ℤ) + 1) (j : ℤ)
        - matGetReflect A ((i : ℤ) - 1) (j : ℤ))
    + (matGetReflect A ((i : ℤ) + 1) ((j : ℤ) + 1)
        - matGetReflect A ((i : ℤ) - 1) ((j : ℤ) + 1))

/-- `np.hypot`. -/
noncomputable def hypot (x y : ℝ) : ℝ := Real.sqrt (x ^ 2 + y ^ 2)

/-- The `combined` map of `SplicingDetector.detect_boundaries`
(splicing_detector.py line 154): the three min-max-normalized maps blended
with weights 0.4/0.3/0.3. -/
noncomputable def splicing_combined_map {m n : ℕ}
    (noise_map dct_map color_map : Fin m → Fin n → ℝ) : Fin m → Fin n → ℝ :=
  fun i j =>
    normalize_minmax noise_map i j * 0.4 + normalize_minmax dct_map i j * 0.3
      + normalize_minmax color_map i j * 0.3

/-- `SplicingDetector.detect_boundaries` (splicing_detector.py lines 148-161):
the gradient magnitude (Sobel x/y, hypot) of the combined map. -/
noncomputable def detect_boundaries {m n : ℕ}
    (noise_map dct_map color_map : Fin m → Fin n → ℝ) : Fin m → Fin n → ℝ :=
  fun i j =>
    hypot (sobel_axis1 (splicing_combined_map noise_map dct_map color_map) i j)
      (sobel_axis0 (splicing_combined_map noise_map dct_map color_map) i j)

/-- `SplicingDetector.calculate_splicing_score` (splicing_detector.py lines
163-196): the global score and the list of the four sub-scores. -/
noncomputable def calculate_splicing_score {m n : ℕ}
    (boundaries noise_map dct_map color_map : Fin m → Fin n → ℝ) :
    ℝ × List ℝ :=
  let boundary_score := matMean boundaries * 100
  let noise_cv := matStd noise_map / (matMean noise_map + 1e-6)
  let noise_score := min (noise_cv * 50) 100
  let dct_cv := matStd dct_map / (matMean dct_map + 1e-6)
  let dct_score := min (dct_cv * 50) 100
  let color_cv := matStd color_map / (matMean color_map + 1e-6)
  let color_score := min (color_cv * 50) 100
  let global_score := boundary_score * 0.4 + noise_score * 0.3
    + dct_score * 0.2 + color_score * 0.1
  (global_score, [boundary_score, noise_score, dct_score, color_score])

/-- The specification's coefficient of variation:
`cv(m) = std(m) / (mean(m) + 1e-6)`. -/
noncomputable def coefficient_of_variation {m n : ℕ}
    (A : Fin m → Fin n → ℝ) : ℝ :=
  matStd A / (matMean A + 1e-6)

/-- The boundary map as the specification words it: the gradient magnitude of
the combination `0.4·noise + 0.3·DCT + 0.3·color` of the independently
min-max-normalized maps. -/
noncomputable def boundary_map_spec {m n : ℕ}
    (noise_map dct_map color_map : Fin m → Fin n → ℝ) : Fin m → Fin n → ℝ :=
  fun i j =>
    hypot
      (sobel_axis1
        (fun a b => 0.4 * normalize_minmax noise_map a b
          + 0.3 * normalize_minmax dct_map a b
          + 0.3 * normalize_minmax color_map a b) i j)
      (sobel_axis0
        (fun a b => 0.4 * normalize_minmax noise_map a b
          + 0.3 * normalize_minmax dct_map a b
          + 0.3 * normalize_minmax color_map a b) i j)

/-- The global splicing score as the specification words it:
`0.4·(mean(boundary map)·100) + 0.3·min(cv(noise)·50, 100) +
0.2·min(cv(DCT)·50, 100) + 0.1·min(cv(color)·50, 100)`. -/
noncomputable def splicing_global_score_spec {m n : ℕ}
    (noise_map dct_map color_map : Fin m → Fin n → ℝ) : ℝ :=
  0.4 * (matMean (boundary_map_spec noise_map dct_map color_map) * 100)
    + 0.3 * min (coefficient_of_variation noise_map * 50) 100
    + 0.2 * min (coefficient_of_variation dct_map * 50) 100
    + 0.1 * min (coefficient_of_variation color_map * 50) 100

/-- C3: for every three equal-size evidence maps, the boundary map the
splicing detector computes is exactly the spec's gradient magnitude of the
0.4/0.3/0.3 blend of the min-max-normalized maps, and the global score it
returns is exactly the spec's weighted sum
`0.4·boundary + 0.3·noise + 0.2·DCT + 0.1·color` of the capped
coefficient-of-variation sub-scores. -/
theorem splicing_fusion_matches_spec {m n : ℕ}
    (noise_map dct_map color_map : Fin m → Fin n → ℝ) :
    detect_boundaries noise_map dct_map color_map
      = boundary_map_spec noise_map dct_map color_map
    ∧ (calculate_splicing_score (detect_boundaries noise_map dct_map color_map)
        noise_map dct_map color_map).1
      = splicing_global_score_spec noise_map dct_map color_map := by
  have hcomb : splicing_combined_map noise_map dct_map color_map
      = fun a b => 0.4 * normalize_minmax noise_map a b
          + 0.3 * normalize_minmax dct_map a b
          + 0.3 * normalize_minmax color_map a b := by
    funext a b
    unfold splicing_combined_map
    ring
  have hb : detect_boundaries noise_map dct_map color_map
      = boundary_map_spec noise_map dct_map color_map := by
    funext i j
    unfold detect_boundaries boundary_map_spec
    rw [hcomb]
  refine ⟨hb, ?_⟩
  rw [hb]
  unfold calculate_splicing_score splicing_global_score_spec
    coefficient_of_variation
  ring

/-! ## Luminance circular variance (src/analyzers/luminance_analyzer.py) -/

/-- The block reducer of `LuminanceAnalyzer.analyze_direction_consistency`
(luminance_analyzer.py lines 88-98): componentwise means of the block's
cosines and sines, `R` their Euclidean norm, block value `1 - R`. -/
noncomputable def direction_block_value {b₁ b₂ : ℕ}
    (block : Fin b₁ → Fin b₂ → ℝ) : ℝ :=
  let mean_cos := matMean (fun i j => Real.cos (block i j))
  let mean_sin := matMean (fun i j => Real.sin (block i j))
  1 - Real.sqrt (mean_cos ^ 2 + mean_sin ^ 2)

/-- Arithmetic mean of a list of reals. -/
noncomputable def listMeanR (l : List ℝ) : ℝ := l.sum / l.length

/-- Circular variance as the specification words it: convert each sample
angle θ to `(cos θ, sin θ)`, average the components, and compute
`1 − sqrt(mean_cos² + mean_sin²)`. -/
noncomputable def circular_variance (angles : List ℝ) : ℝ :=
  1 - Real.sqrt ((listMeanR (angles.map Real.cos)) ^ 2
    + (listMeanR (angles.map Real.sin)) ^ 2)

/-- The row-major list of a block's samples. -/
def blockSamples {b₁ b₂ : ℕ} (block : Fin b₁ → Fin b₂ → ℝ) : List ℝ :=
  (List.ofFn (fun i => List.ofFn (fun j => block i j))).flatten

lemma matMean_comp_eq_listMean {b₁ b₂ : ℕ} (block : Fin b₁ → Fin b₂ → ℝ)
    (f : ℝ → ℝ) :
    matMean (fun i j => f (block i j)) = listMeanR ((blockSamples block).map f) := by
  unfold matMean listMeanR blockSamples
  have hsum : ((List.ofFn fun i => List.ofFn fun j => block i j).flatten.map f).sum
      = ∑ i, ∑ j, f (block i j) := by
    rw [List.map_flatten, List.sum_flatten]
    simp [List.map_ofFn, List.sum_ofFn, Function.comp]
  have hlen : ((List.ofFn fun i => List.ofFn fun j => block i j).flatten.map f).length
      = b₁ * b₂ := by
    rw [List.length_map, List.length_flatten]
    simp [List.map_ofFn, Function.comp, List.length_ofFn, List.sum_ofFn,
      Finset.sum_const, Finset.card_univ, mul_comm]
  rw [hsum, hlen]
  push_cast
  ring

/-- C9: the luminance detector's block value is exactly the circular variance
`1 − sqrt(mean_cos² + mean_sin²)` of the block's angles, the means taken
componentwise over the block's `(cos θ, sin θ)` unit vectors. -/
theorem luminance_block_value_is_circular_variance {b₁ b₂ : ℕ}
    (block : Fin b₁ → Fin b₂ → ℝ) :
    direction_block_value block = circular_variance (blockSamples block) := by
  unfold direction_block_value circular_variance
  rw [matMean_comp_eq_listMean block Real.cos,
    matMean_comp_eq_listMean block Real.sin]

end ForensicAnalyzer
